import Mathlib

/-!
Verification of the alert-analysis pipeline of the AiOps observability
processor (aiops-processor).  The Python sources are shallowly embedded:

* machine data decoded from JSON is modelled by the inductive `Json`
  (numbers as `Rat`);
* Python dicts appear as insertion-ordered association lists with
  first-match lookup (`dget`) and replace-or-append update (`dset`),
  which coincides with CPython dict semantics since `json.loads`
  produces unique keys;
* a raised Python exception is an `Except.error` carrying a `PyErr`;
  a `try/except` block is translated by matching on the `Except`;
* network transports are oracles passed in as functions: an HTTP call
  that may raise is a `FetchOutcome` / `CallResult` value chosen by the
  environment, and the library routine `json.loads` is abstracted as an
  oracle `String -> Option Json` (`none` = `json.JSONDecodeError`);
* `async` is erased: the loop bodies are sequential, as the orchestration
  awaits every call.
-/

/-- Python dict lookup (`d[k]` / `d.get(k)`) on an insertion-ordered
association list: first match wins. -/
def dget {α : Type} : List (String × α) → String → Option α
  | [], _ => none
  | p :: rest, k => if p.1 = k then some p.2 else dget rest k

/-- Python dict lookup with default (`d.get(k, dflt)`). -/
def dgetD {α : Type} (d : List (String × α)) (k : String) (dflt : α) : α :=
  (dget d k).getD dflt

/-- Python dict update (`d[k] = v`): replace the first binding of `k`,
or append a new binding at the end (CPython insertion order). -/
def dset {α : Type} : List (String × α) → String → α → List (String × α)
  | [], k, v => [(k, v)]
  | p :: rest, k, v => if p.1 = k then (k, v) :: rest else p :: dset rest k v

/-- Char-list matching of a pattern against the start of a text, used to
implement the Python substring test. -/
def leadingMatch : List Char → List Char → Bool
  | [], _ => true
  | _ :: _, [] => false
  | c :: cs, d :: ds => c == d && leadingMatch cs ds

/-- Scan of every start position of the text for the pattern. -/
def pyContainsAux (needle : List Char) : List Char → Bool
  | [] => leadingMatch needle []
  | c :: rest => leadingMatch needle (c :: rest) || pyContainsAux needle rest

/-- Python substring test (`needle in hay`). -/
def pyContains (hay needle : String) : Bool :=
  pyContainsAux needle.data hay.data

/-- Python `str.lower` on the label text (ASCII-faithful). -/
def pyLower (s : String) : String :=
  String.mk (s.data.map Char.toLower)

/-- Python `sep.join(xs)`. -/
def joinWith (sep : String) : List String → String
  | [] => ""
  | x :: xs =>
    match xs with
    | [] => x
    | _ :: _ => x ++ sep ++ joinWith sep xs

/-- A JSON value as produced by `json.loads`; numbers are modelled as
rationals (the Python floats appearing in this program are 0.0 and 0.75,
which are exact). -/
inductive Json where
  | null : Json
  | bool : Bool → Json
  | num : Rat → Json
  | str : String → Json
  | arr : List Json → Json
  | obj : List (String × Json) → Json

/-- Whether a decoded value is a JSON object (a Python dict). -/
def Json.isObj : Json → Bool
  | Json.obj _ => true
  | _ => false

/-- Whether a decoded value is a JSON array (a Python list),
as tested by `isinstance(x, list)`. -/
def Json.isArr : Json → Bool
  | Json.arr _ => true
  | _ => false

/-- Rendering of a number by Python `str`: integers without a fractional
part print bare; the generic `Rat` printing stands in for the float repr
(no claim depends on the text of a stringified number). -/
def numRepr (q : Rat) : String :=
  if q.den = 1 then toString q.num else toString q

mutual
/-- Python `repr` of a JSON-decoded value (quote escaping inside strings
is not reproduced; no claim depends on it). -/
def pyRepr : Json → String
  | Json.null => "None"
  | Json.bool true => "True"
  | Json.bool false => "False"
  | Json.num q => numRepr q
  | Json.str s => "\x27" ++ s ++ "\x27"
  | Json.arr xs => "[" ++ pyReprItems xs ++ "]"
  | Json.obj fs => "\x7b" ++ pyReprFields fs ++ "\x7d"

/-- Comma-separated reprs of the items of a Python list. -/
def pyReprItems : List Json → String
  | [] => ""
  | x :: xs =>
    match xs with
    | [] => pyRepr x
    | _ :: _ => pyRepr x ++ ", " ++ pyReprItems xs

/-- Comma-separated reprs of the items of a Python dict. -/
def pyReprFields : List (String × Json) → String
  | [] => ""
  | (k, v) :: fs =>
    match fs with
    | [] => "\x27" ++ k ++ "\x27: " ++ pyRepr v
    | _ :: _ => "\x27" ++ k ++ "\x27: " ++ pyRepr v ++ ", " ++ pyReprFields fs
end

/-- Python `str` of a JSON-decoded value: a string prints itself, every
other value prints as its repr. -/
def pyStr : Json → String
  | Json.str s => s
  | v => pyRepr v

/-- A raised Python exception, as classified by the client code
(clients/deepseek.py).  `typeError` also stands for the
`AttributeError` raised in the corner case where a non-dict passes the
membership tests of the field-repair loop. -/
inductive PyErr where
  | valueError : String → PyErr
  | typeError : PyErr
  | httpStatusError : Nat → PyErr
  | timeoutError : PyErr
  | validationError : PyErr
  | retryError : PyErr
deriving DecidableEq

/-- The parsed analysis dictionary handed around between
`_parse_analysis_response` and the analyzer. -/
abbrev AnalysisDict := List (String × Json)

/-- The fixed fallback dictionary built by `_parse_analysis_response`
when `json.loads` raises `JSONDecodeError`
(clients/deepseek.py lines 350-366). -/
def fallback_analysis (response : String) : AnalysisDict :=
  [("summary", Json.str "Analysis parsing failed"),
   ("root_cause", Json.str "Unable to determine - LLM response format error"),
   ("evidence", Json.arr [Json.str (response.take 500)]),
   ("remediation_steps", Json.arr
     [Json.str "Review the alert manually",
      Json.str "Check system logs and metrics",
      Json.str "Contact the on-call engineer"]),
   ("severity_assessment", Json.str "Unknown - Manual review required"),
   ("confidence", Json.num 0)]

/-- One turn of the required-field loop:
`if field not in result: result[field] = "Not provided"`. -/
def ensureField (d : AnalysisDict) (k : String) : AnalysisDict :=
  if (dget d k).isSome then d else dset d k (Json.str "Not provided")

/-- The loop `for field in required_fields: ...` of
`_parse_analysis_response`, unrolled over the literal field list
`["summary", "root_cause", "evidence", "remediation_steps",
"severity_assessment"]`. -/
def fillRequired (d : AnalysisDict) : AnalysisDict :=
  ensureField (ensureField (ensureField (ensureField (ensureField d
    "summary") "root_cause") "evidence") "remediation_steps") "severity_assessment"

/-- The value stored by the list coercion
`result[k] = [str(result.get(k, ""))]` guarded by
`if not isinstance(result.get(k), list)`. -/
def coerceVal : Option Json → Json
  | some (Json.arr xs) => Json.arr xs
  | some v => Json.arr [Json.str (pyStr v)]
  | none => Json.arr [Json.str ""]

/-- `if not isinstance(result.get(k), list): result[k] = [str(result.get(k, ""))]`. -/
def coerceListField (d : AnalysisDict) (k : String) : AnalysisDict :=
  match dget d k with
  | some (Json.arr _) => d
  | _ => dset d k (coerceVal (dget d k))

/-- `if "confidence" not in result: result["confidence"] = 0.75`. -/
def addConfidence (d : AnalysisDict) : AnalysisDict :=
  if (dget d "confidence").isSome then d else dset d "confidence" (Json.num (3 / 4))

/-- The successful branch of `_parse_analysis_response`: fill in the five
required fields, coerce `evidence` and `remediation_steps` to lists, and
default `confidence`. -/
def repairObj (fields : AnalysisDict) : AnalysisDict :=
  addConfidence (coerceListField (coerceListField (fillRequired fields)
    "evidence") "remediation_steps")

/-- `DeepSeekClient._parse_analysis_response` (clients/deepseek.py lines
317-366).  The library call `json.loads(response)` is abstracted by its
outcome `decoded` (`none` means it raised `json.JSONDecodeError`, the
only exception the function catches).  A decoded non-dict value makes
the repair code raise (`TypeError`, or `AttributeError` in a corner
case), modelled uniformly as `PyErr.typeError`. -/
def parse_analysis_response (decoded : Option Json) (response : String) :
    Except PyErr AnalysisDict :=
  match decoded with
  | none => Except.ok (fallback_analysis response)
  | some (Json.obj fields) => Except.ok (repairObj fields)
  | some _ => Except.error PyErr.typeError

/-- The behaviour of the LLM backend on one HTTP call, as seen by
`DeepSeekClient._call_api`: a content string, an HTTP status error, a
timeout, or a 200 response without a `choices` entry. -/
inductive CallResult where
  | success : String → CallResult
  | httpError : Nat → CallResult
  | timeout : CallResult
  | badFormat : CallResult

/-- `DeepSeekClient._call_api` (clients/deepseek.py lines 215-315): the
error-classification of one call.  401/429/503 are re-raised as
`ValueError` with fixed messages, other HTTP status errors and timeouts
propagate as themselves, a response without choices raises `ValueError`. -/
def call_api : CallResult → Except PyErr String
  | CallResult.success content => Except.ok content
  | CallResult.httpError 401 =>
    Except.error (PyErr.valueError "Authentication failed. Please check your HUAWEI_API_KEY.")
  | CallResult.httpError 429 =>
    Except.error (PyErr.valueError "Rate limit exceeded. Please wait before retrying.")
  | CallResult.httpError 503 =>
    Except.error (PyErr.valueError "Huawei Cloud API service unavailable. Please try again later.")
  | CallResult.httpError s => Except.error (PyErr.httpStatusError s)
  | CallResult.timeout => Except.error PyErr.timeoutError
  | CallResult.badFormat =>
    Except.error (PyErr.valueError "Invalid response format from Huawei Cloud API")

/-- The delay tenacity would sleep before retry number `attempt`, from the
decorator `wait_exponential(multiplier=1, min=4, max=10)`
(clients/deepseek.py lines 49-52): `multiplier * 2 ^ attempt` clamped to
`[minW, maxW]`. -/
def waitExponential (multiplier minW maxW : Rat) (attempt : Nat) : Rat :=
  max minW (min maxW (multiplier * 2 ^ attempt))

/-- The tenacity retry loop with `stop=stop_after_attempt(n)`: run `f` on
successive call indices until it returns instead of raising, at most `n`
attempts; when the budget is exhausted a `RetryError` is raised.  Returns
the number of calls made together with the outcome. -/
def tenacityRun {α : Type} (f : Nat → Except PyErr α) : Nat → Nat → Nat × Except PyErr α
  | 0, idx => (idx, Except.error PyErr.retryError)
  | n + 1, idx =>
    match f idx with
    | Except.ok v => (idx + 1, Except.ok v)
    | Except.error _ => tenacityRun f n (idx + 1)

/-- One time series returned by the Prometheus range query: the label
set and the `[timestamp, "value"]` sample pairs (Prometheus encodes the
sample value as a string). -/
structure MetricResult where
  metric : List (String × String)
  values : List (Rat × String)

/-- One log entry as assembled by `LokiClient._parse_loki_response`. -/
structure LogEntry where
  timestamp : String
  line : String
  labels : List (String × String)

/-- `values[0][1] if len(values) > 0 else "N/A"` of
`_format_metrics_for_prompt`. -/
def firstValStr (values : List (Rat × String)) : String :=
  (values.getD 0 (0, "N/A")).2

/-- `values[len(values)//2][1] if len(values) > 1 else first_val`. -/
def midValStr (values : List (Rat × String)) : String :=
  if 1 < values.length then (values.getD (values.length / 2) (0, "N/A")).2
  else firstValStr values

/-- `values[-1][1] if len(values) > 0 else first_val`. -/
def lastValStr (values : List (Rat × String)) : String :=
  (values.getD (values.length - 1) (0, "N/A")).2

/-- The lines appended for a single series by
`_format_metrics_for_prompt` (clients/deepseek.py lines 166-178): the
label line and the Start/Mid/End summary line, or nothing when the
series carries no samples. -/
def renderSeries (r : MetricResult) : List String :=
  if r.values.isEmpty then []
  else
    let labelsStr := joinWith ", "
      ((r.metric.filter (fun p => p.1 != "__name__")).map (fun p => p.1 ++ "=" ++ p.2))
    ["  - " ++ labelsStr,
     "    Start: " ++ firstValStr r.values ++ ", Mid: " ++ midValStr r.values ++
       ", End: " ++ lastValStr r.values ++ " (" ++ toString r.values.length ++ " data points)"]

/-- The lines appended for one metric query: the header plus at most the
first three series (`for result in results[:3]`). -/
def renderMetricQuery (name : String) (results : List MetricResult) : List String :=
  ("\n**" ++ name ++ ":**") :: (results.take 3).flatMap renderSeries

/-- `DeepSeekClient._format_metrics_for_prompt` (clients/deepseek.py
lines 157-180). -/
def format_metrics_for_prompt (metrics_data : List (String × List MetricResult)) : String :=
  if metrics_data.isEmpty then "No metrics data available."
  else
    let formatted := metrics_data.flatMap (fun p => renderMetricQuery p.1 p.2)
    if formatted.isEmpty then "No metric results found."
    else joinWith "\n" formatted

/-- `if len(line) > 200: line = line[:200] + "..."`. -/
def truncate_line (line : String) : String :=
  if line.length > 200 then line.take 200 ++ "..." else line

/-- `f"  [{timestamp}] {line}"` with the truncated line. -/
def renderLogEntry (e : LogEntry) : String :=
  "  [" ++ e.timestamp ++ "] " ++ truncate_line e.line

/-- `f"\n**{log_query}** ({len(log_entries)} entries):"`. -/
def logQueryHeader (q : String) (n : Nat) : String :=
  "\n**" ++ q ++ "** (" ++ toString n ++ " entries):"

/-- `f"  ... and {len(log_entries) - 10} more entries"`. -/
def moreEntriesMarker (n : Nat) : String :=
  "  ... and " ++ toString n ++ " more entries"

/-- The lines appended for one log query by `_format_logs_for_prompt`
(clients/deepseek.py lines 190-208): nothing for an empty batch,
otherwise a header, the first 10 entries, and a more-entries marker when
more than 10 exist. -/
def renderLogQuery (q : String) (entries : List LogEntry) : List String :=
  if entries.isEmpty then []
  else
    logQueryHeader q entries.length :: (entries.take 10).map renderLogEntry ++
      (if 10 < entries.length then [moreEntriesMarker (entries.length - 10)] else [])

/-- `DeepSeekClient._format_logs_for_prompt` (clients/deepseek.py lines
182-213), with the running `total_logs` counter folded into a sum (empty
batches are skipped by the loop and contribute 0 either way). -/
def format_logs_for_prompt (logs_data : List (String × List LogEntry)) : String :=
  if logs_data.isEmpty then "No log data available."
  else
    let formatted := logs_data.flatMap (fun p => renderLogQuery p.1 p.2)
    let total := (logs_data.map (fun p => p.2.length)).sum
    if formatted.isEmpty then "No relevant logs found."
    else joinWith "\n" (("Total log entries: " ++ toString total) :: formatted)

/-- The alert-context dictionary built by
`AlertAnalyzer._build_alert_context` (services/analyzer.py lines
114-136). -/
structure AlertCtx where
  alertname : String
  severity : String
  status : String
  summary : String
  description : String
  runbook_url : String
  labels : List (String × String)
  starts_at : String
  generator_url : String

/-- `json.dumps(labels, indent=2)` on a string-to-string dict
(whitespace-faithful for the common case; string escaping is not
reproduced). -/
def jsonDumpsLabels (labels : List (String × String)) : String :=
  if labels.isEmpty then "\x7b\x7d"
  else "\x7b\n" ++
    joinWith ",\n" (labels.map (fun p => "  \"" ++ p.1 ++ "\": \"" ++ p.2 ++ "\"")) ++
    "\n\x7d"

/-- `DeepSeekClient._build_analysis_prompt` (clients/deepseek.py lines
80-155): the deterministic prompt template. -/
def build_analysis_prompt (ctx : AlertCtx)
    (metrics_data : List (String × List MetricResult))
    (logs_data : List (String × List LogEntry)) : String :=
  let metrics_summary := format_metrics_for_prompt metrics_data
  let logs_summary := format_logs_for_prompt logs_data
  "You are an expert Site Reliability Engineer (SRE) analyzing a production alert. Your task is to perform root cause analysis and provide actionable remediation steps.\n" ++
  "\n**ALERT INFORMATION:**\n" ++
  "- Alert Name: " ++ ctx.alertname ++ "\n" ++
  "- Severity: " ++ ctx.severity ++ "\n" ++
  "- Summary: " ++ ctx.summary ++ "\n" ++
  "- Description: " ++ ctx.description ++ "\n" ++
  "- Labels: " ++ jsonDumpsLabels ctx.labels ++ "\n" ++
  "\n**METRICS DATA:**\n" ++ metrics_summary ++ "\n" ++
  "\n**LOG DATA:**\n" ++ logs_summary ++ "\n" ++
  "\n**ANALYSIS REQUIRED:**\n" ++
  "Please analyze the above information and provide:\n" ++
  "\n1. **Summary**: A brief 2-3 sentence summary of the incident\n" ++
  "2. **Root Cause**: The most likely root cause based on metrics and logs\n" ++
  "3. **Evidence**: Specific evidence from metrics and logs supporting your analysis (list 3-5 key pieces of evidence)\n" ++
  "4. **Remediation Steps**: Concrete, actionable steps to resolve the issue (ordered by priority)\n" ++
  "5. **Severity Assessment**: Your assessment of the actual impact (Critical/High/Medium/Low) with justification\n" ++
  "\n**OUTPUT FORMAT:**\n" ++
  "Respond ONLY with a valid JSON object in this exact format:\n" ++
  "\x7b\n" ++
  "  \"summary\": \"Brief summary here\",\n" ++
  "  \"root_cause\": \"Identified root cause\",\n" ++
  "  \"evidence\": [\n    \"Evidence point 1\",\n    \"Evidence point 2\",\n    \"Evidence point 3\"\n  ],\n" ++
  "  \"remediation_steps\": [\n    \"Step 1: Immediate action\",\n    \"Step 2: Short-term fix\",\n    \"Step 3: Long-term solution\"\n  ],\n" ++
  "  \"severity_assessment\": \"Critical/High/Medium/Low - Justification\",\n" ++
  "  \"confidence\": 0.85\n" ++
  "\x7d\n" ++
  "\nProvide your analysis now:"

/-- One attempt of `DeepSeekClient.analyze_alert` (clients/deepseek.py
lines 53-78): `_call_api` followed by `_parse_analysis_response`, with
the surrounding `try/except Exception: return None` absorbing every
raised exception into `None`.  `jl` is the `json.loads` oracle, `r` the
behaviour of the backend on this call. -/
def llm_analyze_attempt (jl : String → Option Json) (r : CallResult) :
    Except PyErr (Option AnalysisDict) :=
  match call_api r with
  | Except.error _ => Except.ok none
  | Except.ok s =>
    match parse_analysis_response (jl s) s with
    | Except.error _ => Except.ok none
    | Except.ok d => Except.ok (some d)

/-- `DeepSeekClient.analyze_alert` under its decorator
`@retry(stop=stop_after_attempt(3), wait=wait_exponential(multiplier=1,
min=4, max=10))`: the prompt is built, then tenacity drives up to three
attempts.  `env` scripts the backend behaviour of call number 0, 1, 2,
....  Returns how many calls were made and the final outcome (an
`Except.error` is an exception reaching the caller). -/
def llm_analyze_alert (jl : String → Option Json) (env : Nat → CallResult)
    (ctx : AlertCtx)
    (metrics_data : List (String × List MetricResult))
    (logs_data : List (String × List LogEntry)) :
    Nat × Except PyErr (Option AnalysisDict) :=
  let _prompt := build_analysis_prompt ctx metrics_data logs_data
  tenacityRun (fun i => llm_analyze_attempt jl (env i)) 3 0

/-- The behaviour of a metrics/log backend on one ranged query: either
the transport raised, or it answered with a status string and a result
list (`data.result` of the JSON body). -/
inductive FetchOutcome (α : Type) where
  | raise : FetchOutcome α
  | response : String → List α → FetchOutcome α

/-- `PrometheusClient.query_range` (clients/prometheus.py lines 17-57):
a raised transport error or a non-success status yields `[]`, otherwise
the result list is returned.  Time is epoch seconds (`Int`), matching
`int(start_time.timestamp())`. -/
def prom_query_range (o : FetchOutcome MetricResult) : List MetricResult :=
  match o with
  | FetchOutcome.raise => []
  | FetchOutcome.response status result =>
    if status == "success" then result else []

/-- The query window `[alert_time - window, alert_time + window]` in
epoch seconds, from `timedelta(minutes=window)` in
`get_metrics_for_alert` / `get_logs_for_alert`. -/
def lookbackWindow (alert_time window : Int) : Int × Int :=
  (alert_time - 60 * window, alert_time + 60 * window)

/-- The result-collection loop shared by
`PrometheusClient.get_metrics_for_alert` and
`LokiClient.get_logs_for_alert`: run every named query and keep only the
non-empty results (`if result: results[query_name] = result`). -/
def collectResults {α : Type} (queries : List (String × String))
    (run : String → List α) : List (String × List α) :=
  match queries with
  | [] => []
  | (name, q) :: rest =>
    let r := run q
    if r.isEmpty then collectResults rest run
    else (name, r) :: collectResults rest run

/-- `PrometheusClient._build_queries_from_labels` (clients/prometheus.py
lines 92-154). -/
def build_queries_from_labels (labels : List (String × String)) : List (String × String) :=
  let inst := dgetD labels "instance" ""
  let job := dgetD labels "job" ""
  let component := dgetD labels "component" ""
  let anameLower := pyLower (dgetD labels "alertname" "")
  let q : List (String × String) := []
  let q := if component == "cpu" || pyContains anameLower "cpu" then
      if inst != "" then
        dset (dset q "cpu_usage"
          ("100 - (avg by(instance) (irate(node_cpu_seconds_total\x7bmode=\"idle\",instance=\"" ++ inst ++ "\"\x7d[5m])) * 100)"))
          "cpu_by_mode" ("irate(node_cpu_seconds_total\x7binstance=\"" ++ inst ++ "\"\x7d[5m])")
      else dset q "cpu_usage"
        "100 - (avg by(instance) (irate(node_cpu_seconds_total\x7bmode=\"idle\"\x7d[5m])) * 100)"
    else q
  let q := if component == "memory" || pyContains anameLower "memory" then
      if inst != "" then
        dset (dset q "memory_usage"
          ("(1 - (node_memory_MemAvailable_bytes\x7binstance=\"" ++ inst ++ "\"\x7d / node_memory_MemTotal_bytes\x7binstance=\"" ++ inst ++ "\"\x7d)) * 100"))
          "memory_details" ("node_memory_MemAvailable_bytes\x7binstance=\"" ++ inst ++ "\"\x7d")
      else dset q "memory_usage"
        "(1 - (node_memory_MemAvailable_bytes / node_memory_MemTotal_bytes)) * 100"
    else q
  let q := if component == "disk" || pyContains anameLower "disk" then
      if inst != "" then
        dset q "disk_usage"
          ("(1 - (node_filesystem_avail_bytes\x7binstance=\"" ++ inst ++ "\",fstype!=\"tmpfs\"\x7d / node_filesystem_size_bytes\x7binstance=\"" ++ inst ++ "\",fstype!=\"tmpfs\"\x7d)) * 100")
      else dset q "disk_usage"
        "(1 - (node_filesystem_avail_bytes\x7bfstype!=\"tmpfs\"\x7d / node_filesystem_size_bytes\x7bfstype!=\"tmpfs\"\x7d)) * 100"
    else q
  let q := if job != "" then dset q "instance_up" ("up\x7bjob=\"" ++ job ++ "\"\x7d")
    else if inst != "" then dset q "instance_up" ("up\x7binstance=\"" ++ inst ++ "\"\x7d")
    else q
  let q := if inst != "" then
      dset q "load_average" ("node_load1\x7binstance=\"" ++ inst ++ "\"\x7d")
    else q
  let q := if inst != "" then
      dset (dset q "network_receive"
        ("irate(node_network_receive_bytes_total\x7binstance=\"" ++ inst ++ "\"\x7d[5m])"))
        "network_transmit" ("irate(node_network_transmit_bytes_total\x7binstance=\"" ++ inst ++ "\"\x7d[5m])")
    else q
  let q := if inst != "" then
      dset (dset q "disk_read"
        ("irate(node_disk_read_bytes_total\x7binstance=\"" ++ inst ++ "\"\x7d[5m])"))
        "disk_write" ("irate(node_disk_written_bytes_total\x7binstance=\"" ++ inst ++ "\"\x7d[5m])")
    else q
  if q.isEmpty && inst != "" then
    dset q "instance_up" ("up\x7binstance=\"" ++ inst ++ "\"\x7d")
  else q

/-- `PrometheusClient.get_metrics_for_alert` (clients/prometheus.py
lines 59-90).  `fetch` is the transport oracle, receiving the PromQL
text and the start/end epoch seconds. -/
def get_metrics_for_alert (fetch : String → Int → Int → FetchOutcome MetricResult)
    (labels : List (String × String)) (alert_time window : Int) :
    List (String × List MetricResult) :=
  let w := lookbackWindow alert_time window
  collectResults (build_queries_from_labels labels)
    (fun q => prom_query_range (fetch q w.1 w.2))

/-- One stream of a Loki query response: the stream label set and the
`[timestamp_ns, line]` pairs. -/
structure LokiStream where
  stream : List (String × String)
  values : List (Int × String)

/-- `LokiClient._parse_loki_response` (clients/loki.py lines 62-86):
flatten the streams into log entries; `nsToIso` models
`datetime.fromtimestamp(int(ts) / 1e9).isoformat()`. -/
def parse_loki_response (nsToIso : Int → String) (result : List LokiStream) : List LogEntry :=
  result.flatMap (fun st => st.values.map (fun tv => ⟨nsToIso tv.1, tv.2, st.stream⟩))

/-- `LokiClient.query_range` (clients/loki.py lines 17-60): a raised
transport error or a non-success status yields `[]`, otherwise the
streams are flattened. -/
def loki_query_range (nsToIso : Int → String) (o : FetchOutcome LokiStream) : List LogEntry :=
  match o with
  | FetchOutcome.raise => []
  | FetchOutcome.response status result =>
    if status == "success" then parse_loki_response nsToIso result else []

/-- `LokiClient._build_queries_from_labels` (clients/loki.py lines
121-167). -/
def loki_build_queries_from_labels (labels : List (String × String)) : List (String × String) :=
  let service := dgetD labels "service" ""
  let job := dgetD labels "job" ""
  let inst := dgetD labels "instance" ""
  let q : List (String × String) := []
  let q := if service != "" then
      dset (dset (dset q "service_all_logs" ("\x7bservice=\"" ++ service ++ "\"\x7d"))
        "service_errors" ("\x7bservice=\"" ++ service ++ "\"\x7d |~ \"(?i)(error|exception|fatal|critical)\""))
        "service_warnings" ("\x7bservice=\"" ++ service ++ "\"\x7d |~ \"(?i)(warn|warning)\"")
    else q
  let q := if job != "" then
      dset (dset q "job_logs" ("\x7bjob=\"" ++ job ++ "\"\x7d"))
        "job_errors" ("\x7bjob=\"" ++ job ++ "\"\x7d |~ \"(?i)(error|exception|fatal)\"")
    else q
  let q := if service != "" then
      dset (dset q "container_logs" ("\x7bcontainer=~\".*" ++ service ++ ".*\"\x7d"))
        "container_errors" ("\x7bcontainer=~\".*" ++ service ++ ".*\"\x7d |~ \"(?i)(error|exception|failed|fatal)\"")
    else q
  let q := if inst != "" then
      let instanceHost := (inst.splitOn ":").headD inst
      dset q "instance_logs" ("\x7binstance=~\".*" ++ instanceHost ++ ".*\"\x7d")
    else q
  if q.isEmpty then
    dset (dset q "all_errors" "\x7bjob=~\".+\"\x7d |~ \"(?i)(error|exception|fatal|critical)\"")
      "all_warnings" "\x7bjob=~\".+\"\x7d |~ \"(?i)(warn|warning)\""
  else q

/-- `LokiClient.get_logs_for_alert` (clients/loki.py lines 88-119).
Loki receives nanosecond bounds (`int(ts * 1e9)`). -/
def get_logs_for_alert (fetch : String → Int → Int → FetchOutcome LokiStream)
    (nsToIso : Int → String) (labels : List (String × String))
    (alert_time window : Int) : List (String × List LogEntry) :=
  let w := lookbackWindow alert_time window
  collectResults (loki_build_queries_from_labels labels)
    (fun q => loki_query_range nsToIso (fetch q (1000000000 * w.1) (1000000000 * w.2)))

/-- A single alert from AlertManager (models/schemas.py `Alert`). -/
structure Alert where
  status : String
  labels : List (String × String)
  annotations : List (String × String)
  startsAt : String
  endsAt : String := ""
  generatorURL : String := ""
  fingerprint : String := ""

/-- The structured analysis (models/schemas.py `AnalysisResult`).  The
time-of-analysis stamp `analyzed_at` (a wall-clock default factory) and
the unused optional `additional_context` are not modelled. -/
structure AnalysisResult where
  alert_name : String
  severity : String
  summary : String
  root_cause : String
  evidence : List String
  remediation_steps : List String
  severity_assessment : String
  confidence : Rat
deriving DecidableEq

/-- Pydantic validation of a `str` field: a JSON string passes, other
shapes raise `ValidationError` (the lax coercions pydantic applies to
numeric strings are not exercised by this program and not modelled). -/
def asStr : Json → Except PyErr String
  | Json.str s => Except.ok s
  | _ => Except.error PyErr.validationError

/-- Pydantic validation of a `List[str]` field. -/
def asStrList : Json → Except PyErr (List String)
  | Json.arr xs =>
    xs.foldr (fun x acc => do
      let s ← asStr x
      let rest ← acc
      pure (s :: rest)) (Except.ok [])
  | _ => Except.error PyErr.validationError

/-- Pydantic validation of a `float` field. -/
def asFloat : Json → Except PyErr Rat
  | Json.num q => Except.ok q
  | _ => Except.error PyErr.validationError

/-- The `AnalysisResult(...)` construction of
`AlertAnalyzer.analyze_alert` (services/analyzer.py lines 74-83): each
field is read with `analysis.get(...)` and a default, then validated by
pydantic; a shape mismatch raises. -/
def mkAnalysisResult (a : Alert) (d : AnalysisDict) : Except PyErr AnalysisResult := do
  let summary ← asStr (dgetD d "summary" (Json.str ""))
  let root_cause ← asStr (dgetD d "root_cause" (Json.str ""))
  let evidence ← asStrList (dgetD d "evidence" (Json.arr []))
  let remediation_steps ← asStrList (dgetD d "remediation_steps" (Json.arr []))
  let severity_assessment ← asStr (dgetD d "severity_assessment" (Json.str ""))
  let confidence ← asFloat (dgetD d "confidence" (Json.num 0))
  Except.ok ⟨dgetD a.labels "alertname" "Unknown", dgetD a.labels "severity" "unknown",
    summary, root_cause, evidence, remediation_steps, severity_assessment, confidence⟩

/-- `AlertAnalyzer._parse_alert_time` (services/analyzer.py lines
92-112).  `fromiso` models `datetime.fromisoformat` (`none` = it
raised); `now` models `datetime.utcnow()`; time is epoch seconds.  The
source tests for a microseconds dot but runs the same conversion in
both branches. -/
def parse_alert_time (fromiso : String → Option Int) (now : Int) (starts_at : String) : Int :=
  if pyContains starts_at "." then
    match fromiso (starts_at.replace "Z" "+00:00") with
    | some t => t
    | none => now
  else
    match fromiso (starts_at.replace "Z" "+00:00") with
    | some t => t
    | none => now

/-- `AlertAnalyzer._build_alert_context` (services/analyzer.py lines
114-136). -/
def build_alert_context (a : Alert) : AlertCtx :=
  ⟨dgetD a.labels "alertname" "Unknown", dgetD a.labels "severity" "unknown",
   a.status, dgetD a.annotations "summary" "", dgetD a.annotations "description" "",
   dgetD a.annotations "runbook_url" "", a.labels, a.startsAt, a.generatorURL⟩

/-- The body of `AlertAnalyzer.analyze_alert` (services/analyzer.py
lines 35-86) before its surrounding `try/except`: gather context,
metrics and logs, call the LLM client, and build the result.  An
`Except.error` is an exception that the surrounding handler will catch.
The check `if not analysis` is Python truthiness: `None` and an empty
dict both short-circuit to `None`. -/
def analyzer_body (jl : String → Option Json) (env : Nat → CallResult)
    (fetchM : String → Int → Int → FetchOutcome MetricResult)
    (fetchL : String → Int → Int → FetchOutcome LokiStream)
    (nsToIso : Int → String) (fromiso : String → Option Int)
    (now window : Int) (a : Alert) : Except PyErr (Option AnalysisResult) :=
  let alert_time := parse_alert_time fromiso now a.startsAt
  let ctx := build_alert_context a
  let metrics_data := get_metrics_for_alert fetchM a.labels alert_time window
  let logs_data := get_logs_for_alert fetchL nsToIso a.labels alert_time window
  match (llm_analyze_alert jl env ctx metrics_data logs_data).2 with
  | Except.error e => Except.error e
  | Except.ok none => Except.ok none
  | Except.ok (some d) =>
    if d.isEmpty then Except.ok none
    else
      match mkAnalysisResult a d with
      | Except.error e => Except.error e
      | Except.ok r => Except.ok (some r)

/-- `AlertAnalyzer.analyze_alert` (services/analyzer.py lines 25-90):
the body wrapped in `try/except Exception: return None`. -/
def AlertAnalyzer_analyze_alert (jl : String → Option Json) (env : Nat → CallResult)
    (fetchM : String → Int → Int → FetchOutcome MetricResult)
    (fetchL : String → Int → Int → FetchOutcome LokiStream)
    (nsToIso : Int → String) (fromiso : String → Option Int)
    (now window : Int) (a : Alert) : Except PyErr (Option AnalysisResult) :=
  match analyzer_body jl env fetchM fetchL nsToIso fromiso now window a with
  | Except.ok v => Except.ok v
  | Except.error _ => Except.ok none

/-- `AlertAnalyzer.batch_analyze_alerts` (services/analyzer.py lines
138-160): skip alerts whose status is `"resolved"`, analyze the rest,
keep the non-`None` results.  `analyze` abstracts `self.analyze_alert`. -/
def batch_analyze_alerts (analyze : Alert → Option AnalysisResult) :
    List Alert → List AnalysisResult
  | [] => []
  | a :: rest =>
    if a.status == "resolved" then batch_analyze_alerts analyze rest
    else
      match analyze a with
      | some r => r :: batch_analyze_alerts analyze rest
      | none => batch_analyze_alerts analyze rest

/-- The JSON reply of the `/webhook/alerts` endpoint. -/
structure WebhookReply where
  status : String
  message : String
  processed : Nat
deriving DecidableEq

/-- `receive_alerts` (app.py lines 83-111): only alerts with status
`"firing"` are put on the queue.  Returns the enqueued alerts and the
HTTP reply. -/
def receive_alerts (alerts : List Alert) : List Alert × WebhookReply :=
  let firing := alerts.filter (fun a => a.status == "firing")
  if firing.isEmpty then ([], ⟨"ok", "No firing alerts", 0⟩)
  else (firing, ⟨"ok", "Queued " ++ toString firing.length ++ " alerts for analysis",
    firing.length⟩)

/-- Python truthiness of an optional webhook URL setting (`None` and the
empty string are falsy). -/
def truthy : Option String → Bool
  | none => false
  | some s => !s.isEmpty

/-- `_send_slack_notification` / `_send_generic_webhook`
(services/notifier.py lines 69-95 and 193-236): the whole send is inside
`try/except`, so a raised transport error becomes `False` and a 2xx
delivery becomes `True`. -/
def send_channel (post : Except PyErr Unit) : Bool :=
  match post with
  | Except.ok _ => true
  | Except.error _ => false

/-- `NotificationService.send_analysis` (services/notifier.py lines
24-67).  `slackPost` / `genericPost` are the transport outcomes of the
two channels; the second component records, in order, which channels
were attempted (instrumentation for the independence property). -/
def send_analysis (slack_webhook_url generic_webhook_url : Option String)
    (slackPost genericPost : Except PyErr Unit) : Bool × List String :=
  let success := false
  let p1 := if truthy slack_webhook_url
    then (success || send_channel slackPost, ["slack"]) else (success, [])
  let p2 := if truthy generic_webhook_url
    then (p1.1 || send_channel genericPost, p1.2 ++ ["generic"]) else p1
  if !truthy slack_webhook_url && !truthy generic_webhook_url then (true, p2.2) else p2

/-- A minimal alert context used to exercise the LLM client on concrete
inputs. -/
def emptyCtx : AlertCtx :=
  ⟨"Unknown", "unknown", "firing", "", "", "", [], "", ""⟩

/-- The label mapping of the end-to-end scenario of the spec
(section 8). -/
def hcLabels : List (String × String) :=
  [("alertname", "HighCPU"), ("instance", "host1:9100"), ("component", "cpu")]

/-- A firing alert carrying the end-to-end scenario labels. -/
def hcAlert : Alert :=
  ⟨"firing", hcLabels, [], "2024-01-01T00:00:00Z", "", "", ""⟩

/-- An alert whose status is neither `"firing"` nor `"resolved"`. -/
def pendingAlert : Alert :=
  ⟨"pending", [("alertname", "HighCPU")], [], "2024-01-01T00:00:00Z", "", "", ""⟩

/-- A fixed analysis result used as the output of an analysis oracle. -/
def dummyResult : AnalysisResult :=
  ⟨"HighCPU", "unknown", "", "", [], [], "", 0⟩

/-- A 25-entry log batch for the truncation scenario of the spec. -/
def entries25 : List LogEntry :=
  List.replicate 25 ⟨"2024-01-01T00:00:00", "error: boom", []⟩

/-- A 300-character log line for the truncation scenario of the spec. -/
def line300 : String :=
  String.mk (List.replicate 300 'x')

/-- A `json.loads` oracle that decodes every response to a well-formed
analysis object. -/
def jlOk : String → Option Json :=
  fun _ => some (Json.obj
    [("summary", Json.str "CPU saturated"),
     ("root_cause", Json.str "Runaway process"),
     ("evidence", Json.arr [Json.str "cpu_usage above 95"]),
     ("remediation_steps", Json.arr [Json.str "Restart the offending service"]),
     ("severity_assessment", Json.str "High - sustained saturation"),
     ("confidence", Json.num (17 / 20))])

theorem dget_dset_self {α : Type} (d : List (String × α)) (k : String) (v : α) :
    dget (dset d k v) k = some v := by
  induction d with
  | nil => simp [dget, dset]
  | cons p rest ih =>
    by_cases h : p.1 = k
    · simp [dget, dset, h]
    · simp [dget, dset, h, ih]

theorem dget_dset_ne {α : Type} (d : List (String × α)) {k k' : String} (v : α)
    (h : k ≠ k') : dget (dset d k v) k' = dget d k' := by
  induction d with
  | nil => simp [dget, dset, h]
  | cons p rest ih =>
    by_cases hp : p.1 = k
    · simp [dget, dset, hp, h]
    · simp only [dset, hp, if_false]
      by_cases hp' : p.1 = k'
      · simp [dget, hp']
      · simp [dget, hp', ih]

theorem dget_ensureField_self (d : AnalysisDict) (k : String) :
    dget (ensureField d k) k = some ((dget d k).getD (Json.str "Not provided")) := by
  unfold ensureField
  cases h : dget d k with
  | none => simp [h, dget_dset_self]
  | some v => simp [h]

theorem dget_ensureField_ne (d : AnalysisDict) {k k' : String} (h : k ≠ k') :
    dget (ensureField d k) k' = dget d k' := by
  unfold ensureField
  cases hd : dget d k with
  | none => simp [hd, dget_dset_ne _ _ h]
  | some v => simp [hd]

theorem dget_coerceListField_self (d : AnalysisDict) (k : String) :
    dget (coerceListField d k) k = some (coerceVal (dget d k)) := by
  unfold coerceListField
  cases h : dget d k with
  | none => simp [h, dget_dset_self, coerceVal]
  | some v =>
    cases v <;> simp [h, dget_dset_self, coerceVal]

theorem dget_coerceListField_ne (d : AnalysisDict) {k k' : String} (h : k ≠ k') :
    dget (coerceListField d k) k' = dget d k' := by
  unfold coerceListField
  cases hd : dget d k with
  | none => simp [hd, dget_dset_ne _ _ h]
  | some v =>
    cases v <;> simp [hd, dget_dset_ne _ _ h]

theorem dget_addConfidence_self (d : AnalysisDict) :
    dget (addConfidence d) "confidence" =
      some ((dget d "confidence").getD (Json.num (3 / 4))) := by
  unfold addConfidence
  cases h : dget d "confidence" with
  | none => simp [h, dget_dset_self]
  | some v => simp [h]

theorem dget_addConfidence_ne (d : AnalysisDict) {k' : String} (h : "confidence" ≠ k') :
    dget (addConfidence d) k' = dget d k' := by
  unfold addConfidence
  cases hd : dget d "confidence" with
  | none => simp [hd, dget_dset_ne _ _ h]
  | some v => simp [hd]

theorem coerceVal_isArr (o : Option Json) : ∃ xs, coerceVal o = Json.arr xs := by
  match o with
  | none => exact ⟨_, rfl⟩
  | some (Json.arr xs) => exact ⟨xs, rfl⟩
  | some Json.null => exact ⟨_, rfl⟩
  | some (Json.bool b) => exact ⟨_, rfl⟩
  | some (Json.num q) => exact ⟨_, rfl⟩
  | some (Json.str s) => exact ⟨_, rfl⟩
  | some (Json.obj fs) => exact ⟨_, rfl⟩

theorem mem_keys_collectResults {α : Type} (qs : List (String × String))
    (run : String → List α) (name : String)
    (h : name ∈ (collectResults qs run).map Prod.fst) :
    ∃ q, (name, q) ∈ qs ∧ run q ≠ [] := by
  induction qs with
  | nil => simp [collectResults] at h
  | cons p rest ih =>
    obtain ⟨n, q⟩ := p
    by_cases hr : (run q).isEmpty
    · simp only [collectResults, hr, if_true] at h
      obtain ⟨q', hq', hr'⟩ := ih h
      exact ⟨q', List.mem_cons_of_mem _ hq', hr'⟩
    · simp only [collectResults, hr, if_false, List.map_cons] at h
      cases h with
      | head =>
        exact ⟨q, List.mem_cons_self _ _, by simpa [List.isEmpty_iff] using hr⟩
      | tail _ h =>
        obtain ⟨q', hq', hr'⟩ := ih h
        exact ⟨q', List.mem_cons_of_mem _ hq', hr'⟩

theorem collectResults_nil_of_run_nil {α : Type} (qs : List (String × String))
    (run : String → List α) (h : ∀ q, run q = []) : collectResults qs run = [] := by
  induction qs with
  | nil => rfl
  | cons p rest ih =>
    obtain ⟨n, q⟩ := p
    simp [collectResults, h q, ih]

theorem llm_analyze_attempt_ok (jl : String → Option Json) (r : CallResult) :
    ∃ v, llm_analyze_attempt jl r = Except.ok v := by
  cases hc : call_api r with
  | error e => exact ⟨none, by simp [llm_analyze_attempt, hc]⟩
  | ok s =>
    cases hp : parse_analysis_response (jl s) s with
    | error e => exact ⟨none, by simp [llm_analyze_attempt, hc, hp]⟩
    | ok d => exact ⟨some d, by simp [llm_analyze_attempt, hc, hp]⟩

theorem joinWith_cons_of_ne (sep x : String) (xs : List String) (h : xs ≠ []) :
    joinWith sep (x :: xs) = x ++ sep ++ joinWith sep xs := by
  cases xs with
  | nil => exact absurd rfl h
  | cons y ys => rfl

/-- C1 counterexample: the response text `"[]"` decodes to a JSON array,
which is malformed LLM output, yet `_parse_analysis_response` raises a
`TypeError` on it instead of returning the fixed fallback result. -/
theorem C1_counterexample :
    parse_analysis_response (some (Json.arr [])) "[]" = Except.error PyErr.typeError ∧
    (Except.error PyErr.typeError : Except PyErr AnalysisDict) ≠
      Except.ok (fallback_analysis "[]") :=
  ⟨rfl, fun h => Except.noConfusion h⟩

/-- C1 (amended): for every response string that cannot be decoded as
JSON the parser returns, without raising, the exact fixed fallback
result (summary "Analysis parsing failed", root cause "Unable to
determine - LLM response format error", evidence = the first 500
characters of the raw response, the three fixed manual-review steps,
severity assessment "Unknown - Manual review required", confidence 0).
A response that decodes to a non-object JSON value, however, makes the
parser raise a `TypeError`; `analyze_alert` absorbs that exception into
a `None` return instead of converting it to the fallback. -/
theorem C1_decode_failure_fallback :
    (∀ response : String,
      parse_analysis_response none response = Except.ok
        [("summary", Json.str "Analysis parsing failed"),
         ("root_cause", Json.str "Unable to determine - LLM response format error"),
         ("evidence", Json.arr [Json.str (response.take 500)]),
         ("remediation_steps", Json.arr
           [Json.str "Review the alert manually",
            Json.str "Check system logs and metrics",
            Json.str "Contact the on-call engineer"]),
         ("severity_assessment", Json.str "Unknown - Manual review required"),
         ("confidence", Json.num 0)]) ∧
    (∀ (response : String) (v : Json), Json.isObj v = false →
      parse_analysis_response (some v) response = Except.error PyErr.typeError) ∧
    (∀ (jl : String → Option Json) (s : String) (v : Json),
      jl s = some v → Json.isObj v = false →
      llm_analyze_attempt jl (CallResult.success s) = Except.ok none) := by
  refine ⟨fun response => rfl, ?_, ?_⟩
  · intro response v hv
    cases v <;> simp [Json.isObj] at hv ⊢ <;> rfl
  · intro jl s v hjl hv
    have hp : parse_analysis_response (jl s) s = Except.error PyErr.typeError := by
      rw [hjl]
      cases v <;> simp [Json.isObj] at hv ⊢ <;> rfl
    have hc : call_api (CallResult.success s) = Except.ok s := rfl
    simp [llm_analyze_attempt, hc, hp]

/-- C1 witness: the amended theorem at the concrete inputs
`"oops not json"` (decode failure), a decoded bare string, and a client
attempt whose response decodes to an array. -/
theorem C1_decode_failure_fallback_witness :
    parse_analysis_response none "oops not json" =
      Except.ok (fallback_analysis "oops not json") ∧
    parse_analysis_response (some (Json.str "x")) "\"x\"" = Except.error PyErr.typeError ∧
    llm_analyze_attempt (fun _ => some (Json.arr [])) (CallResult.success "[]") =
      Except.ok none :=
  ⟨C1_decode_failure_fallback.1 "oops not json",
   C1_decode_failure_fallback.2.1 "\"x\"" (Json.str "x") rfl,
   C1_decode_failure_fallback.2.2 (fun _ => some (Json.arr [])) "[]" (Json.arr []) rfl rfl⟩

/-- C2 counterexample: against a backend that answers 503 on every call
(in particular three consecutive times), `analyze_alert` makes exactly
one call - not three - and returns `None`; no retriable-exhausted
failure is surfaced, because the function absorbs the exception before
the retry decorator can see it. -/
theorem C2_counterexample :
    llm_analyze_alert (fun _ => none) (fun _ => CallResult.httpError 503) emptyCtx [] [] =
      (1, Except.ok none) ∧
    (llm_analyze_alert (fun _ => none) (fun _ => CallResult.httpError 503) emptyCtx [] []).1 ≠ 3 :=
  ⟨rfl, by decide⟩

/-- C2 (amended): `analyze_alert` is wrapped in a tenacity decorator
configured for 3 attempts with exponential backoff clamped to [4, 10]
time-units, but its body catches every exception and returns `None`, so
the decorator never fires: under every backend behaviour (401, 429,
503, timeouts, anything) exactly one call is made, no exception reaches
the caller, and no typed retriable-exhausted failure is ever produced.
The configured backoff delays do lie between 4 and 10. -/
theorem C2_no_retry_single_attempt :
    ∀ (jl : String → Option Json) (env : Nat → CallResult) (ctx : AlertCtx)
      (metrics_data : List (String × List MetricResult))
      (logs_data : List (String × List LogEntry)),
      (llm_analyze_alert jl env ctx metrics_data logs_data).1 = 1 ∧
      (∃ v, (llm_analyze_alert jl env ctx metrics_data logs_data).2 = Except.ok v) ∧
      (∀ attempt : Nat,
        4 ≤ waitExponential 1 4 10 attempt ∧ waitExponential 1 4 10 attempt ≤ 10) := by
  intro jl env ctx md ld
  obtain ⟨v, hv⟩ := llm_analyze_attempt_ok jl (env 0)
  refine ⟨?_, ⟨v, ?_⟩, ?_⟩
  · simp [llm_analyze_alert, tenacityRun, hv]
  · simp [llm_analyze_alert, tenacityRun, hv]
  · intro attempt
    unfold waitExponential
    exact ⟨le_max_left _ _, max_le (by norm_num) (min_le_left _ _)⟩

/-- C3 (confirmed): `send_analysis` attempts exactly the configured
channels, in order, independently of either outcome, and returns true
iff some configured channel succeeded or no channel at all is
configured (log-as-fallback counts as success); with every configured
channel failing it returns false. -/
theorem C3_notification_fanout :
    ∀ (slack_webhook_url generic_webhook_url : Option String)
      (slackPost genericPost : Except PyErr Unit),
      (send_analysis slack_webhook_url generic_webhook_url slackPost genericPost).2 =
        (if truthy slack_webhook_url then ["slack"] else []) ++
        (if truthy generic_webhook_url then ["generic"] else []) ∧
      (send_analysis slack_webhook_url generic_webhook_url slackPost genericPost).1 =
        ((truthy slack_webhook_url && send_channel slackPost) ||
         (truthy generic_webhook_url && send_channel genericPost) ||
         (!truthy slack_webhook_url && !truthy generic_webhook_url)) := by
  intro su gu sp gp
  cases h1 : truthy su <;> cases h2 : truthy gu <;>
    cases h3 : send_channel sp <;> cases h4 : send_channel gp <;>
      simp [send_analysis, h1, h2, h3, h4]

theorem repairObj_summary (fields : AnalysisDict) :
    dget (repairObj fields) "summary" =
      some ((dget fields "summary").getD (Json.str "Not provided")) := by
  unfold repairObj fillRequired
  rw [dget_addConfidence_ne _ (by decide),
    dget_coerceListField_ne _ (by decide),
    dget_coerceListField_ne _ (by decide),
    dget_ensureField_ne _ (by decide),
    dget_ensureField_ne _ (by decide),
    dget_ensureField_ne _ (by decide),
    dget_ensureField_ne _ (by decide),
    dget_ensureField_self]

theorem repairObj_root_cause (fields : AnalysisDict) :
    dget (repairObj fields) "root_cause" =
      some ((dget fields "root_cause").getD (Json.str "Not provided")) := by
  unfold repairObj fillRequired
  rw [dget_addConfidence_ne _ (by decide),
    dget_coerceListField_ne _ (by decide),
    dget_coerceListField_ne _ (by decide),
    dget_ensureField_ne _ (by decide),
    dget_ensureField_ne _ (by decide),
    dget_ensureField_ne _ (by decide),
    dget_ensureField_self,
    dget_ensureField_ne _ (by decide)]

theorem repairObj_severity_assessment (fields : AnalysisDict) :
    dget (repairObj fields) "severity_assessment" =
      some ((dget fields "severity_assessment").getD (Json.str "Not provided")) := by
  unfold repairObj fillRequired
  rw [dget_addConfidence_ne _ (by decide),
    dget_coerceListField_ne _ (by decide),
    dget_coerceListField_ne _ (by decide),
    dget_ensureField_self,
    dget_ensureField_ne _ (by decide),
    dget_ensureField_ne _ (by decide),
    dget_ensureField_ne _ (by decide),
    dget_ensureField_ne _ (by decide)]

theorem repairObj_evidence (fields : AnalysisDict) :
    dget (repairObj fields) "evidence" =
      some (coerceVal (some ((dget fields "evidence").getD (Json.str "Not provided")))) := by
  unfold repairObj fillRequired
  rw [dget_addConfidence_ne _ (by decide),
    dget_coerceListField_ne _ (by decide),
    dget_coerceListField_self,
    dget_ensureField_ne _ (by decide),
    dget_ensureField_ne _ (by decide),
    dget_ensureField_self,
    dget_ensureField_ne _ (by decide),
    dget_ensureField_ne _ (by decide)]

theorem repairObj_remediation_steps (fields : AnalysisDict) :
    dget (repairObj fields) "remediation_steps" =
      some (coerceVal (some ((dget fields "remediation_steps").getD (Json.str "Not provided")))) := by
  unfold repairObj fillRequired
  rw [dget_addConfidence_ne _ (by decide),
    dget_coerceListField_self,
    dget_coerceListField_ne _ (by decide),
    dget_ensureField_ne _ (by decide),
    dget_ensureField_self,
    dget_ensureField_ne _ (by decide),
    dget_ensureField_ne _ (by decide),
    dget_ensureField_ne _ (by decide)]

theorem repairObj_confidence (fields : AnalysisDict) :
    dget (repairObj fields) "confidence" =
      some ((dget fields "confidence").getD (Json.num (3 / 4))) := by
  unfold repairObj fillRequired
  rw [dget_addConfidence_self,
    dget_coerceListField_ne _ (by decide),
    dget_coerceListField_ne _ (by decide),
    dget_ensureField_ne _ (by decide),
    dget_ensureField_ne _ (by decide),
    dget_ensureField_ne _ (by decide),
    dget_ensureField_ne _ (by decide),
    dget_ensureField_ne _ (by decide)]

/-- C4 (confirmed): for every LLM response decoding to a JSON object,
the parser succeeds; absent required fields come back as the literal
"Not provided" (with `evidence` / `remediation_steps` subsequently
wrapped into one-element lists), a non-list `evidence` or
`remediation_steps` value is coerced to the one-element list of its
stringification, both fields are always lists in the output, and a
missing `confidence` defaults to 0.75. -/
theorem C4_object_repair :
    ∀ (fields : AnalysisDict) (response : String),
      ∃ d, parse_analysis_response (some (Json.obj fields)) response = Except.ok d ∧
        (dget fields "summary" = none →
          dget d "summary" = some (Json.str "Not provided")) ∧
        (dget fields "root_cause" = none →
          dget d "root_cause" = some (Json.str "Not provided")) ∧
        (dget fields "severity_assessment" = none →
          dget d "severity_assessment" = some (Json.str "Not provided")) ∧
        (dget fields "evidence" = none →
          dget d "evidence" = some (Json.arr [Json.str "Not provided"])) ∧
        (dget fields "remediation_steps" = none →
          dget d "remediation_steps" = some (Json.arr [Json.str "Not provided"])) ∧
        (∀ v, dget fields "evidence" = some v → Json.isArr v = false →
          dget d "evidence" = some (Json.arr [Json.str (pyStr v)])) ∧
        (∀ v, dget fields "remediation_steps" = some v → Json.isArr v = false →
          dget d "remediation_steps" = some (Json.arr [Json.str (pyStr v)])) ∧
        (∃ xs, dget d "evidence" = some (Json.arr xs)) ∧
        (∃ xs, dget d "remediation_steps" = some (Json.arr xs)) ∧
        (dget fields "confidence" = none →
          dget d "confidence" = some (Json.num (3 / 4))) := by
  intro fields response
  refine ⟨repairObj fields, rfl, ?_, ?_, ?_, ?_, ?_, ?_, ?_, ?_, ?_, ?_⟩
  · intro h
    rw [repairObj_summary, h]
    rfl
  · intro h
    rw [repairObj_root_cause, h]
    rfl
  · intro h
    rw [repairObj_severity_assessment, h]
    rfl
  · intro h
    rw [repairObj_evidence, h]
    rfl
  · intro h
    rw [repairObj_remediation_steps, h]
    rfl
  · intro v hv hna
    rw [repairObj_evidence, hv]
    cases v with
    | arr xs => simp [Json.isArr] at hna
    | null => rfl
    | bool b => rfl
    | num q => rfl
    | str s => rfl
    | obj fs => rfl
  · intro v hv hna
    rw [repairObj_remediation_steps, hv]
    cases v with
    | arr xs => simp [Json.isArr] at hna
    | null => rfl
    | bool b => rfl
    | num q => rfl
    | str s => rfl
    | obj fs => rfl
  · obtain ⟨xs, hxs⟩ :=
      coerceVal_isArr (some ((dget fields "evidence").getD (Json.str "Not provided")))
    exact ⟨xs, by rw [repairObj_evidence, hxs]⟩
  · obtain ⟨xs, hxs⟩ :=
      coerceVal_isArr (some ((dget fields "remediation_steps").getD (Json.str "Not provided")))
    exact ⟨xs, by rw [repairObj_remediation_steps, hxs]⟩
  · intro h
    rw [repairObj_confidence, h]
    rfl

/-- C4 witness: the theorem at the empty object and at an object whose
`evidence` is the bare string "cpu spike". -/
theorem C4_object_repair_witness :
    (∃ d, parse_analysis_response (some (Json.obj [])) "" = Except.ok d ∧
      dget d "summary" = some (Json.str "Not provided") ∧
      dget d "evidence" = some (Json.arr [Json.str "Not provided"]) ∧
      dget d "confidence" = some (Json.num (3 / 4))) ∧
    (∃ d, parse_analysis_response
        (some (Json.obj [("evidence", Json.str "cpu spike")])) "" = Except.ok d ∧
      dget d "evidence" = some (Json.arr [Json.str "cpu spike"])) := by
  constructor
  · obtain ⟨d, hd, h1, _, _, h4, _, _, _, _, _, h10⟩ := C4_object_repair [] ""
    exact ⟨d, hd, h1 rfl, h4 rfl, h10 rfl⟩
  · obtain ⟨d, hd, _, _, _, _, _, h6, _, _, _, _⟩ :=
      C4_object_repair [("evidence", Json.str "cpu spike")] ""
    exact ⟨d, hd, h6 (Json.str "cpu spike") rfl rfl⟩

/-- C5 (confirmed): the metric formatter renders at most the first 3
series of each query (the output is unchanged by dropping later series)
and each series only through its first/middle/last sample values and
its sample count; the log formatter renders at most the first 10
entries of each query, each line longer than 200 characters truncated
to its first 200 characters plus "...", followed by a more-entries
marker naming the surplus when more than 10 exist (a 25-entry batch
renders exactly 10 lines plus a 15-more marker), and the whole log
block is prefixed with the running total entry count. -/
theorem C5_context_formatter_bounds :
    (∀ (name : String) (results : List MetricResult),
      renderMetricQuery name results = renderMetricQuery name (results.take 3)) ∧
    (∀ (m : List (String × String)) (v1 v2 : List (Rat × String)),
      v1.length = v2.length → firstValStr v1 = firstValStr v2 →
      midValStr v1 = midValStr v2 → lastValStr v1 = lastValStr v2 →
      renderSeries ⟨m, v1⟩ = renderSeries ⟨m, v2⟩) ∧
    (∀ (q : String) (entries : List LogEntry), entries ≠ [] →
      renderLogQuery q entries =
        logQueryHeader q entries.length :: (entries.take 10).map renderLogEntry ++
          (if 10 < entries.length then [moreEntriesMarker (entries.length - 10)] else [])) ∧
    (∀ (q : String) (entries : List LogEntry), entries.length = 25 →
      ((entries.take 10).map renderLogEntry).length = 10 ∧
      renderLogQuery q entries =
        logQueryHeader q 25 :: (entries.take 10).map renderLogEntry ++
          [moreEntriesMarker 15]) ∧
    (∀ line : String, 200 < line.length →
      truncate_line line = line.take 200 ++ "...") ∧
    (∀ logs_data : List (String × List LogEntry),
      logs_data.flatMap (fun p => renderLogQuery p.1 p.2) ≠ [] →
      ∃ rest, format_logs_for_prompt logs_data =
        "Total log entries: " ++ toString ((logs_data.map (fun p => p.2.length)).sum) ++ rest) := by
  have hlog : ∀ (q : String) (entries : List LogEntry), entries ≠ [] →
      renderLogQuery q entries =
        logQueryHeader q entries.length :: (entries.take 10).map renderLogEntry ++
          (if 10 < entries.length then [moreEntriesMarker (entries.length - 10)] else []) := by
    intro q entries h
    have he : entries.isEmpty = false := by
      cases entries with
      | nil => exact absurd rfl h
      | cons a l => rfl
    simp [renderLogQuery, he]
  refine ⟨?_, ?_, hlog, ?_, ?_, ?_⟩
  · intro name results
    simp [renderMetricQuery, List.take_take]
  · intro m v1 v2 hlen h1 h2 h3
    have he : v1.isEmpty = v2.isEmpty := by
      cases v1 <;> cases v2 <;> simp_all
    simp only [renderSeries, he, hlen, h1, h2, h3]
  · intro q entries h25
    have hne : entries ≠ [] := by
      intro hnil
      rw [hnil] at h25
      simp at h25
    constructor
    · simp [List.length_take, h25]
    · rw [hlog q entries hne, h25]
      norm_num
  · intro line h
    simp [truncate_line, h]
  · intro logs_data h
    have he1 : logs_data.isEmpty = false := by
      cases hl : logs_data with
      | nil =>
        rw [hl] at h
        exact absurd rfl h
      | cons a l => rfl
    have he2 : (logs_data.flatMap (fun p => renderLogQuery p.1 p.2)).isEmpty = false := by
      cases hf : logs_data.flatMap (fun p => renderLogQuery p.1 p.2) with
      | nil => exact absurd hf h
      | cons a l => rfl
    refine ⟨"\n" ++ joinWith "\n" (logs_data.flatMap (fun p => renderLogQuery p.1 p.2)), ?_⟩
    simp only [format_logs_for_prompt, he1, he2, Bool.false_eq_true, if_false]
    rw [joinWith_cons_of_ne _ _ _ h, String.append_assoc]

set_option maxRecDepth 8000 in
/-- C5 witness: the theorem at the 25-entry batch (10 verbatim lines and
a 15-more marker) and at a 300-character line (truncated to 200 plus an
ellipsis). -/
theorem C5_context_formatter_bounds_witness :
    (((entries25.take 10).map renderLogEntry).length = 10 ∧
      renderLogQuery "container_errors" entries25 =
        logQueryHeader "container_errors" 25 :: (entries25.take 10).map renderLogEntry ++
          [moreEntriesMarker 15]) ∧
    truncate_line line300 = line300.take 200 ++ "..." :=
  ⟨C5_context_formatter_bounds.2.2.2.1 "container_errors" entries25 rfl,
   C5_context_formatter_bounds.2.2.2.2.1 line300 (by decide)⟩

/-- C6 counterexample: an alert with status `"pending"` is not firing,
yet `batch_analyze_alerts` hands it to the analysis step - its output
depends on the analysis of that alert - instead of skipping it with no
side effects.  Only alerts whose status is exactly `"resolved"` are
skipped there. -/
theorem C6_counterexample :
    pendingAlert.status ≠ "firing" ∧
    pendingAlert.status ≠ "resolved" ∧
    batch_analyze_alerts (fun _ => some dummyResult) [pendingAlert] = [dummyResult] ∧
    batch_analyze_alerts (fun _ => none) [pendingAlert] = [] :=
  ⟨by decide, by decide, rfl, rfl⟩

/-- C6 (amended): the webhook ingress enqueues exactly the alerts with
status `"firing"` (every other alert is dropped with no side effects),
while `batch_analyze_alerts` skips exactly the alerts with status
`"resolved"`: an alert with any other non-firing status is still
analyzed there. -/
theorem C6_firing_filter :
    (∀ alerts : List Alert,
      (receive_alerts alerts).1 = alerts.filter (fun a => a.status == "firing")) ∧
    (∀ (analyze : Alert → Option AnalysisResult) (alerts : List Alert),
      batch_analyze_alerts analyze alerts =
        (alerts.filter (fun a => a.status != "resolved")).filterMap analyze) := by
  constructor
  · intro alerts
    simp only [receive_alerts]
    split
    · next h => exact (List.isEmpty_iff.mp h).symm
    · rfl
  · intro analyze alerts
    induction alerts with
    | nil => rfl
    | cons a rest ih =>
      cases h : a.status == "resolved" with
      | true =>
        have h' : a.status = "resolved" := by simpa using h
        simp [batch_analyze_alerts, h, List.filter_cons, h', ih]
      | false =>
        have h' : ¬(a.status = "resolved") := by simpa using h
        cases ha : analyze a with
        | some r =>
          simp [batch_analyze_alerts, h, List.filter_cons, List.filterMap_cons, ha, h', ih]
        | none =>
          simp [batch_analyze_alerts, h, List.filter_cons, List.filterMap_cons, ha, h', ih]

/-- C7 (confirmed): a metrics or log query whose transport raises (or
answers with zero series/lines) is simply absent from the results map -
no exception propagates - and the analyzer behaves identically whether
every backend call raises or every backend call succeeds with empty
data, so the pipeline still reaches the Analysis Client. -/
theorem C7_transport_failure_is_empty :
    (∀ (fetchM : String → Int → Int → FetchOutcome MetricResult)
        (labels : List (String × String)) (alert_time window : Int) (name : String),
      (∀ q, (name, q) ∈ build_queries_from_labels labels →
        fetchM q (lookbackWindow alert_time window).1 (lookbackWindow alert_time window).2 =
            FetchOutcome.raise ∨
          fetchM q (lookbackWindow alert_time window).1 (lookbackWindow alert_time window).2 =
            FetchOutcome.response "success" []) →
      name ∉ (get_metrics_for_alert fetchM labels alert_time window).map Prod.fst) ∧
    (∀ (fetchL : String → Int → Int → FetchOutcome LokiStream) (nsToIso : Int → String)
        (labels : List (String × String)) (alert_time window : Int) (name : String),
      (∀ q, (name, q) ∈ loki_build_queries_from_labels labels →
        fetchL q (1000000000 * (lookbackWindow alert_time window).1)
            (1000000000 * (lookbackWindow alert_time window).2) = FetchOutcome.raise ∨
          fetchL q (1000000000 * (lookbackWindow alert_time window).1)
            (1000000000 * (lookbackWindow alert_time window).2) =
            FetchOutcome.response "success" []) →
      name ∉ (get_logs_for_alert fetchL nsToIso labels alert_time window).map Prod.fst) ∧
    (∀ (jl : String → Option Json) (env : Nat → CallResult) (nsToIso : Int → String)
        (fromiso : String → Option Int) (now window : Int) (a : Alert),
      AlertAnalyzer_analyze_alert jl env (fun _ _ _ => FetchOutcome.raise)
          (fun _ _ _ => FetchOutcome.raise) nsToIso fromiso now window a =
        AlertAnalyzer_analyze_alert jl env (fun _ _ _ => FetchOutcome.response "success" [])
          (fun _ _ _ => FetchOutcome.response "success" []) nsToIso fromiso now window a) := by
  refine ⟨?_, ?_, ?_⟩
  · intro fetchM labels t w name hq hmem
    unfold get_metrics_for_alert at hmem
    obtain ⟨q, hqmem, hrun⟩ := mem_keys_collectResults _ _ _ hmem
    cases hq q hqmem with
    | inl h => exact hrun (by simp [prom_query_range, h])
    | inr h => exact hrun (by simp [prom_query_range, h])
  · intro fetchL nsToIso labels t w name hq hmem
    unfold get_logs_for_alert at hmem
    obtain ⟨q, hqmem, hrun⟩ := mem_keys_collectResults _ _ _ hmem
    cases hq q hqmem with
    | inl h => exact hrun (by simp [loki_query_range, h])
    | inr h => exact hrun (by simp [loki_query_range, parse_loki_response, h])
  · intro jl env nsToIso fromiso now window a
    have hm1 : get_metrics_for_alert (fun _ _ _ => FetchOutcome.raise) a.labels
        (parse_alert_time fromiso now a.startsAt) window = [] :=
      collectResults_nil_of_run_nil _ _ (fun _ => rfl)
    have hm2 : get_metrics_for_alert (fun _ _ _ => FetchOutcome.response "success" []) a.labels
        (parse_alert_time fromiso now a.startsAt) window = [] :=
      collectResults_nil_of_run_nil _ _ (fun _ => rfl)
    have hl1 : get_logs_for_alert (fun _ _ _ => FetchOutcome.raise) nsToIso a.labels
        (parse_alert_time fromiso now a.startsAt) window = [] :=
      collectResults_nil_of_run_nil _ _ (fun _ => rfl)
    have hl2 : get_logs_for_alert (fun _ _ _ => FetchOutcome.response "success" []) nsToIso
        a.labels (parse_alert_time fromiso now a.startsAt) window = [] :=
      collectResults_nil_of_run_nil _ _ (fun _ => rfl)
    simp only [AlertAnalyzer_analyze_alert, analyzer_body]
    rw [hm1, hm2, hl1, hl2]

/-- C7 witness: the theorem at the end-to-end labels with an
always-raising transport - the synthesized queries are absent from the
results of both builders. -/
theorem C7_transport_failure_is_empty_witness :
    "cpu_usage" ∉
      (get_metrics_for_alert (fun _ _ _ => FetchOutcome.raise) hcLabels 0 15).map Prod.fst ∧
    "instance_logs" ∉
      (get_logs_for_alert (fun _ _ _ => FetchOutcome.raise) (fun _ => "") hcLabels 0 15).map
        Prod.fst :=
  ⟨C7_transport_failure_is_empty.1 (fun _ _ _ => FetchOutcome.raise) hcLabels 0 15 "cpu_usage"
    (fun _ _ => Or.inl rfl),
   C7_transport_failure_is_empty.2.1 (fun _ _ _ => FetchOutcome.raise) (fun _ => "") hcLabels
    0 15 "instance_logs" (fun _ _ => Or.inl rfl)⟩

/-- C8 (confirmed): for the labels alertname=HighCPU,
instance=host1:9100, component=cpu, the synthesized Prometheus query set
contains a `cpu_usage` and an `instance_up` query, and the full analyzer
run on such an alert completes without error (returns a result) when
both backends answer every query with empty results. -/
theorem C8_highcpu_query_synthesis :
    "cpu_usage" ∈ (build_queries_from_labels hcLabels).map Prod.fst ∧
    "instance_up" ∈ (build_queries_from_labels hcLabels).map Prod.fst ∧
    ∃ r, AlertAnalyzer_analyze_alert jlOk (fun _ => CallResult.success "ok")
        (fun _ _ _ => FetchOutcome.response "success" [])
        (fun _ _ _ => FetchOutcome.response "success" [])
        (fun _ => "") (fun _ => none) 0 15 hcAlert = Except.ok (some r) :=
  ⟨by decide, by decide, ⟨_, rfl⟩⟩

/-- C9 (confirmed): `AlertAnalyzer.analyze_alert` is total at its public
interface: under every oracle behaviour it returns `Except.ok` (a
result or `None`, never a propagated exception), and whenever its body
raises, the surrounding handler turns the exception into `None`. -/
theorem C9_analyze_alert_total :
    ∀ (jl : String → Option Json) (env : Nat → CallResult)
      (fetchM : String → Int → Int → FetchOutcome MetricResult)
      (fetchL : String → Int → Int → FetchOutcome LokiStream)
      (nsToIso : Int → String) (fromiso : String → Option Int)
      (now window : Int) (a : Alert),
      (∃ v, AlertAnalyzer_analyze_alert jl env fetchM fetchL nsToIso fromiso now window a =
        Except.ok v) ∧
      (∀ e, analyzer_body jl env fetchM fetchL nsToIso fromiso now window a = Except.error e →
        AlertAnalyzer_analyze_alert jl env fetchM fetchL nsToIso fromiso now window a =
          Except.ok none) := by
  intro jl env fetchM fetchL nsToIso fromiso now window a
  constructor
  · cases hb : analyzer_body jl env fetchM fetchL nsToIso fromiso now window a with
    | ok v => exact ⟨v, by simp [AlertAnalyzer_analyze_alert, hb]⟩
    | error e => exact ⟨none, by simp [AlertAnalyzer_analyze_alert, hb]⟩
  · intro e he
    simp [AlertAnalyzer_analyze_alert, he]

/-- C9 witness: the theorem at an oracle set whose LLM answer carries a
numeric `summary`, which makes the pydantic construction raise inside
the body; the public function still returns `None`. -/
theorem C9_analyze_alert_total_witness :
    AlertAnalyzer_analyze_alert (fun _ => some (Json.obj [("summary", Json.num 1)]))
      (fun _ => CallResult.success "x") (fun _ _ _ => FetchOutcome.response "success" [])
      (fun _ _ _ => FetchOutcome.response "success" []) (fun _ => "") (fun _ => none)
      0 15 hcAlert = Except.ok none :=
  (C9_analyze_alert_total (fun _ => some (Json.obj [("summary", Json.num 1)]))
    (fun _ => CallResult.success "x") (fun _ _ _ => FetchOutcome.response "success" [])
    (fun _ _ _ => FetchOutcome.response "success" []) (fun _ => "") (fun _ => none)
    0 15 hcAlert).2 PyErr.validationError rfl

/-- C10 (confirmed): when `startsAt` cannot be parsed as an ISO-8601
timestamp, `_parse_alert_time` falls back to the current time instead
of raising, so the metric/log lookback window is centered on the moment
of processing. -/
theorem C10_bad_timestamp_uses_now :
    ∀ (fromiso : String → Option Int) (now : Int) (starts_at : String) (window : Int),
      fromiso (starts_at.replace "Z" "+00:00") = none →
      parse_alert_time fromiso now starts_at = now ∧
      lookbackWindow (parse_alert_time fromiso now starts_at) window =
        (now - 60 * window, now + 60 * window) := by
  intro fromiso now s w h
  have hp : parse_alert_time fromiso now s = now := by
    unfold parse_alert_time
    split <;> simp [h]
  exact ⟨hp, by rw [hp]; rfl⟩

/-- C10 witness: the theorem at a parser that rejects the concrete text
"not-a-timestamp". -/
theorem C10_bad_timestamp_uses_now_witness :
    parse_alert_time (fun _ => none) 42 "not-a-timestamp" = 42 ∧
    lookbackWindow (parse_alert_time (fun _ => none) 42 "not-a-timestamp") 15 =
      (42 - 60 * 15, 42 + 60 * 15) :=
  C10_bad_timestamp_uses_now (fun _ => none) 42 "not-a-timestamp" 15 rfl
